import Mathlib

/-!
Shallow embedding of the SCADA dashboard (`src/app1.py`) and proofs of the
specified properties of its serial protocol, sample store and derived views.

Modelling conventions:
* Wall-clock instants (`pd.Timestamp.now()`) are natural numbers.
* Current readings are rationals; Python's builtin `float(s)` parse is
  abstracted as a parameter `floatFn : String → Option ℚ` (`some` = parse
  succeeds, `none` = `ValueError`).
* The serial peripheral is a `Device`: for each command written, the raw
  line that `ser.readline().decode()` yields.  A possibly-failed
  `get_serial_connection()` result is an `Option Device` (`none` = the
  null handle after a failed open).
* Side effects on the link are recorded as a `List LinkEvent`.
-/

namespace Scada

/-- One row of the session DataFrame `st.session_state.data`
(columns `timestamp`, `current`). -/
structure Sample where
  timestamp : ℕ
  current : ℚ
deriving DecidableEq, Repr

/-- The per-session state: the DataFrame `st.session_state.data`, as the
ordered list of its rows (appends via `pd.concat` keep insertion order). -/
structure AppState where
  data : List Sample
deriving DecidableEq, Repr

/-- The serial peripheral: for each command text written to the link,
the raw response line that `ser.readline().decode()` returns. -/
structure Device where
  respond : String → String

/-- Observable operations `send_command` performs on the serial link:
`ser.write`, `time.sleep(0.1)`, `ser.readline`. -/
inductive LinkEvent
  | write (s : String)
  | sleep
  | read
deriving DecidableEq, Repr

/-- Python `str.strip()`: remove leading and trailing whitespace, modelled
on the underlying character list. -/
def pyStrip (s : String) : String :=
  String.mk (((s.data.dropWhile Char.isWhitespace).reverse.dropWhile
    Char.isWhitespace).reverse)

/-- Helper for `pySplit`: accumulates the current token (reversed) while
scanning the remaining characters. -/
def pySplitAux (sep : Char) : List Char → List Char → List String
  | acc, [] => [String.mk acc.reverse]
  | acc, c :: rest =>
    if c = sep then String.mk acc.reverse :: pySplitAux sep [] rest
    else pySplitAux sep (c :: acc) rest

/-- Python `str.split(sep)` for a one-character separator `sep`: splits at
every occurrence, keeping empty tokens, and yields `[""]` on the empty
string. -/
def pySplit (sep : Char) (s : String) : List String :=
  pySplitAux sep [] s.data

/-- `send_command(ser, command)` from `src/app1.py`: with a live handle it
writes the command, sleeps, reads one line and strips it; with a null
handle it returns the literal error string and touches the link not at
all.  The second component records the link operations performed. -/
def send_command (ser : Option Device) (command : String) :
    String × List LinkEvent :=
  match ser with
  | some d =>
      (pyStrip (d.respond command),
       [LinkEvent.write command, LinkEvent.sleep, LinkEvent.read])
  | none => ("Error: No serial connection", [])

/-- `read_current(ser)` from `src/app1.py`: sends `READ`, tries
`float(current_str)`; on success appends one timestamped sample to the
store, on `ValueError` leaves the store alone and surfaces
`st.error(f"Invalid current reading: \x7bcurrent_str\x7d")` (modelled as
the `Option String` error component).  `now` is the instant
`pd.Timestamp.now()` evaluates to. -/
def read_current (floatFn : String → Option ℚ) (now : ℕ)
    (ser : Option Device) (st : AppState) : AppState × Option String :=
  let current_str := (send_command ser "READ").1
  match floatFn current_str with
  | some current =>
      ({ data := st.data ++ [{ timestamp := now, current := current }] }, none)
  | none => (st, some ("Invalid current reading: " ++ current_str))

/-- Two-decimal rendering of a rational, modelling the f-string format
`f"\x7blatest_current:.2f\x7d"`. -/
def format2 (q : ℚ) : String :=
  let n : ℤ := round (q * 100)
  let sign := if n < 0 then "-" else ""
  let m := n.natAbs
  let r := m % 100
  sign ++ toString (m / 100) ++ "." ++
    (if r < 10 then "0" ++ toString r else toString r)

/-- `display_current_reading()` from `src/app1.py`: when the store is
non-empty shows the metric value `f"\x7blatest_current:.2f\x7d A"` built
from the last row's `current`; when empty renders nothing (`none`). -/
def display_current_reading (st : AppState) : Option String :=
  match st.data.getLast? with
  | some s => some (format2 s.current ++ " A")
  | none => none

/-- The `STATUS` display loop of `system_control`:
`for i, state in enumerate(states): status_cols[i].write(...)` where
`status_cols = st.columns(5)` has exactly five slots.  Returns the
`(i, state)` rows written before control leaves the loop, and `true` when
the loop aborts with `IndexError` (`status_cols[i]` with `i ≥ 5`). -/
def statusLoop : ℕ → List String → List (ℕ × String) × Bool
  | _, [] => ([], false)
  | i, state :: rest =>
    if i < 5 then
      let tail := statusLoop (i + 1) rest
      ((i, state) :: tail.1, tail.2)
    else ([], true)

/-- The `STATUS` display of `system_control`, given the response string
returned by `send_command`: the guard `if status:` skips the whole block
for the empty (falsy) string, otherwise the response is split on `","`
and displayed positionally by `statusLoop`. -/
def statusDisplay (status : String) : List (ℕ × String) × Bool :=
  if status = "" then ([], false)
  else statusLoop 0 (pySplit ',' status)

/-- The "Bulb Status" section of `system_control(ser)`:
`status = send_command(ser, "STATUS")` followed by the guarded display. -/
def system_status (ser : Option Device) : List (ℕ × String) × Bool :=
  statusDisplay (send_command ser "STATUS").1

/-- The toggle-button handler in `system_control(ser)`: button `i` sends
`f"TOGGLE\x7bi\x7d"` and writes
`f"Control System Response: \x7bresponse\x7d"`.  Returns the displayed
line and the link events of the exchange. -/
def toggle_button (ser : Option Device) (i : ℕ) : String × List LinkEvent :=
  let r := send_command ser ("TOGGLE" ++ toString i)
  ("Control System Response: " ++ r.1, r.2)

/-- The summary-statistics rows of `df.describe()` that the claims refer
to (count, mean, min, max over the `current` column). -/
structure Stats where
  count : ℕ
  mean : ℚ
  min : ℚ
  max : ℚ
deriving DecidableEq, Repr

/-- `data_analytics()` from `src/app1.py`: when the store is empty it
writes "No data available for analytics." and returns; otherwise it shows
`df.describe()` over the session data — modelled by the count, mean, min
and max of the `current` column. -/
def data_analytics (st : AppState) : Except String Stats :=
  match st.data.map Sample.current with
  | [] => Except.error "No data available for analytics."
  | x :: xs =>
      Except.ok
        { count := xs.length + 1
          mean := (x :: xs).sum / ((xs.length + 1 : ℕ) : ℚ)
          min := xs.foldl min x
          max := xs.foldl max x }

/-- A session's sequence of "Read Current" clicks: each event is the
instant `pd.Timestamp.now()` yields at that click together with the serial
handle in use, folded through `read_current`. -/
def runSession (floatFn : String → Option ℚ) :
    List (ℕ × Option Device) → AppState → AppState
  | [], st => st
  | (t, ser) :: rest, st =>
      runSession floatFn rest (read_current floatFn t ser st).1

/-- The samples a sequence of read events contributes to the store: one
per event whose `READ` response parses. -/
def parsedSamples (floatFn : String → Option ℚ) :
    List (ℕ × Option Device) → List Sample
  | [] => []
  | (t, ser) :: rest =>
    match floatFn (send_command ser "READ").1 with
    | some c => { timestamp := t, current := c } :: parsedSamples floatFn rest
    | none => parsedSamples floatFn rest

lemma read_current_eq (floatFn : String → Option ℚ) (now : ℕ)
    (ser : Option Device) (st : AppState) :
    read_current floatFn now ser st =
      match floatFn (send_command ser "READ").1 with
      | some c =>
          ({ data := st.data ++ [{ timestamp := now, current := c }] }, none)
      | none =>
          (st, some ("Invalid current reading: " ++
            (send_command ser "READ").1)) := rfl

lemma runSession_data (floatFn : String → Option ℚ) :
    ∀ (events : List (ℕ × Option Device)) (st : AppState),
      (runSession floatFn events st).data =
        st.data ++ parsedSamples floatFn events := by
  intro events
  induction events with
  | nil => intro st; simp [runSession, parsedSamples]
  | cons e rest ih =>
      intro st
      obtain ⟨t, ser⟩ := e
      rw [runSession, ih, read_current_eq]
      cases h : floatFn (send_command ser "READ").1 <;>
        simp [parsedSamples, h]

lemma parsedSamples_stamps_sublist (floatFn : String → Option ℚ) :
    ∀ events : List (ℕ × Option Device),
      List.Sublist ((parsedSamples floatFn events).map Sample.timestamp)
        (events.map Prod.fst) := by
  intro events
  induction events with
  | nil => simp [parsedSamples]
  | cons e rest ih =>
      obtain ⟨t, ser⟩ := e
      rw [parsedSamples]
      cases h : floatFn (send_command ser "READ").1 with
      | none => exact List.Sublist.cons _ ih
      | some c => simpa using List.Sublist.cons₂ t ih

lemma statusLoop_short :
    ∀ (l : List String) (i : ℕ), i + l.length ≤ 5 →
      statusLoop i l = (List.enumFrom i l, false) := by
  intro l
  induction l with
  | nil => intro i _; rfl
  | cons s rest ih =>
      intro i h
      have hi : i < 5 := by simp only [List.length_cons] at h; omega
      have hr : i + 1 + rest.length ≤ 5 := by
        simp only [List.length_cons] at h; omega
      simp only [statusLoop, if_pos hi, ih (i + 1) hr, List.enumFrom]

lemma statusLoop_long :
    ∀ (l : List String) (i : ℕ), i ≤ 5 → 5 < i + l.length →
      statusLoop i l = (List.enumFrom i (l.take (5 - i)), true) := by
  intro l
  induction l with
  | nil =>
      intro i hle hlt
      exact absurd hlt (by simp; omega)
  | cons s rest ih =>
      intro i hle hlt
      by_cases hi : i < 5
      · have hr := ih (i + 1) (by omega)
          (by simp only [List.length_cons] at hlt; omega)
        have htake : 5 - i = (5 - (i + 1)) + 1 := by omega
        simp only [statusLoop, if_pos hi, hr, htake, List.take_succ_cons,
          List.enumFrom]
      · have hi5 : i = 5 := by omega
        subst hi5
        simp [statusLoop]

/-- Claim C3: `send_command` with a null serial handle returns the literal
string "Error: No serial connection" and performs no write, sleep or read
on the link, for every command. -/
theorem exchange_null_handle (command : String) :
    send_command none command = ("Error: No serial connection", []) := rfl

/-- Claim C9: toggle button `i` sends exactly the literal command
`TOGGLE\x7bi\x7d` over the link (one write, then sleep and read) and the
displayed line embeds the returned response text unmodified after the
fixed label; in particular button 2 sends exactly "TOGGLE2". -/
theorem toggle_sends_literal_command (d : Device) (i : ℕ) :
    toggle_button (some d) i =
      ("Control System Response: " ++
         pyStrip (d.respond ("TOGGLE" ++ toString i)),
       [LinkEvent.write ("TOGGLE" ++ toString i), LinkEvent.sleep,
        LinkEvent.read]) ∧
    toggle_button (some d) 2 =
      ("Control System Response: " ++ pyStrip (d.respond "TOGGLE2"),
       [LinkEvent.write "TOGGLE2", LinkEvent.sleep, LinkEvent.read]) :=
  ⟨rfl, rfl⟩

/-- Claim C8: on a store holding exactly the samples with currents 1.0
and 3.0 the analytics view reports count 2, mean 2.0, min 1.0 and
max 3.0; on the empty store it reports "No data available for
analytics." instead. -/
theorem analytics_two_samples (t0 t1 : ℕ) :
    data_analytics ⟨[⟨t0, 1⟩, ⟨t1, 3⟩]⟩ =
      Except.ok ⟨2, 2, 1, 3⟩ ∧
    data_analytics ⟨[]⟩ =
      Except.error "No data available for analytics." := by
  refine ⟨?_, rfl⟩
  simp only [data_analytics, List.map_cons, List.map_nil]
  norm_num [Except.ok.injEq, Stats.mk.injEq, List.sum_cons, List.sum_nil,
    List.foldl, min_def, max_def]

/-- Claim C7: when the STATUS exchange returns exactly
"ON,OFF,ON,OFF,ON", the status display shows five rows labeled 0–4
with values ON, OFF, ON, OFF, ON, and no error is raised. -/
theorem status_five_tokens_display (d : Device)
    (h : d.respond "STATUS" = "ON,OFF,ON,OFF,ON") :
    system_status (some d) =
      ([(0, "ON"), (1, "OFF"), (2, "ON"), (3, "OFF"), (4, "ON")], false) := by
  simp only [system_status, send_command, h]
  decide

/-- Witness for C7 at a concrete device. -/
theorem status_five_tokens_display_witness :
    (Device.mk fun _ => "ON,OFF,ON,OFF,ON").respond "STATUS"
        = "ON,OFF,ON,OFF,ON" ∧
    system_status (some (Device.mk fun _ => "ON,OFF,ON,OFF,ON")) =
      ([(0, "ON"), (1, "OFF"), (2, "ON"), (3, "OFF"), (4, "ON")], false) :=
  ⟨rfl, status_five_tokens_display _ rfl⟩

/-- Claim C10: when the STATUS exchange returns the empty string, the
status display shows zero rows (and raises no error): the display loop
is guarded by the truthiness check `if status:`. -/
theorem status_empty_display_no_rows (d : Device)
    (h : (send_command (some d) "STATUS").1 = "") :
    system_status (some d) = ([], false) := by
  simp [system_status, statusDisplay, h]

/-- Witness for C10 at a concrete device whose line is empty. -/
theorem status_empty_display_no_rows_witness :
    (send_command (some (Device.mk fun _ => "")) "STATUS").1 = "" ∧
    system_status (some (Device.mk fun _ => "")) = ([], false) :=
  ⟨by decide, status_empty_display_no_rows _ (by decide)⟩

/-- Counterexample to C4 as stated: on the six-token STATUS response
"A,B,C,D,E,F" the display operation does fail — `status_cols[5]` raises
`IndexError` — so extra tokens are not dropped silently. -/
theorem status_overflow_raises :
    (statusDisplay "A,B,C,D,E,F").2 = true := by decide

/-- Claim C4 (amended): for every non-empty STATUS response, the display
splits on "," and shows tokens positionally; with at most 5 tokens all
tokens become rows and no error occurs, while with more than 5 tokens the
first five tokens are rendered and the display then aborts with an
index-out-of-range error. -/
theorem status_display_token_cases (status : String) (hne : status ≠ "") :
    ((pySplit ',' status).length ≤ 5 →
      statusDisplay status = (List.enumFrom 0 (pySplit ',' status), false)) ∧
    (5 < (pySplit ',' status).length →
      statusDisplay status =
        (List.enumFrom 0 ((pySplit ',' status).take 5), true)) := by
  constructor
  · intro h
    rw [statusDisplay, if_neg hne, statusLoop_short _ 0 (by simpa using h)]
  · intro h
    rw [statusDisplay, if_neg hne, statusLoop_long _ 0 (by omega)
      (by simpa using h)]

/-- Witness for the amended C4 at a concrete six-token response. -/
theorem status_display_token_cases_witness :
    ("A,B,C,D,E,F" : String) ≠ "" ∧
    statusDisplay "A,B,C,D,E,F" =
      (List.enumFrom 0 ((pySplit ',' "A,B,C,D,E,F").take 5), true) :=
  ⟨by decide, (status_display_token_cases _ (by decide)).2 (by decide)⟩

/-- Claim C1: when the READ response parses as a float, `read_current`
appends exactly one sample, whose `current` equals the parsed value and
whose timestamp (the instant `pd.Timestamp.now()` yields, no earlier than
the time `tcall` of the call) is ≥ the time of the call; nothing else is
added to the store. -/
theorem read_ok_appends_one_sample (floatFn : String → Option ℚ)
    (tcall now : ℕ) (ser : Option Device) (st : AppState) (c : ℚ)
    (hclock : tcall ≤ now)
    (hparse : floatFn (send_command ser "READ").1 = some c) :
    (read_current floatFn now ser st).1.data =
      st.data ++ [{ timestamp := now, current := c }] ∧
    tcall ≤ ({ timestamp := now, current := c } : Sample).timestamp := by
  refine ⟨?_, hclock⟩
  rw [read_current_eq, hparse]

/-- Witness for C1 at a concrete parse function, device and store. -/
theorem read_ok_appends_one_sample_witness :
    (0 : ℕ) ≤ 3 ∧
    (fun s => if s = "7" then some (7 : ℚ) else none)
        ((send_command (some (Device.mk fun _ => "7")) "READ").1) =
      some (7 : ℚ) ∧
    ((read_current (fun s => if s = "7" then some (7 : ℚ) else none) 3
        (some (Device.mk fun _ => "7")) ⟨[]⟩).1.data =
      (AppState.mk []).data ++ [{ timestamp := 3, current := 7 }] ∧
     (0 : ℕ) ≤ ({ timestamp := 3, current := (7 : ℚ) } : Sample).timestamp) :=
  ⟨by decide, by decide,
   read_ok_appends_one_sample _ 0 3 _ _ _ (by decide) (by decide)⟩

/-- Claim C2: when the READ response does not parse as a float,
`read_current` leaves the store exactly as it was and surfaces the
"Invalid current reading" error to the operator instead of raising. -/
theorem read_bad_leaves_store_unchanged (floatFn : String → Option ℚ)
    (now : ℕ) (ser : Option Device) (st : AppState)
    (hparse : floatFn (send_command ser "READ").1 = none) :
    (read_current floatFn now ser st).1 = st ∧
    (read_current floatFn now ser st).2 =
      some ("Invalid current reading: " ++ (send_command ser "READ").1) := by
  rw [read_current_eq, hparse]
  exact ⟨rfl, rfl⟩

/-- Witness for C2 at a concrete parse function and a null handle. -/
theorem read_bad_leaves_store_unchanged_witness :
    (fun _ : String => (none : Option ℚ))
        ((send_command none "READ").1) = none ∧
    ((read_current (fun _ : String => (none : Option ℚ)) 0 none ⟨[]⟩).1 =
      (⟨[]⟩ : AppState) ∧
     (read_current (fun _ : String => (none : Option ℚ)) 0 none ⟨[]⟩).2 =
       some ("Invalid current reading: " ++ (send_command none "READ").1)) :=
  ⟨rfl, read_bad_leaves_store_unchanged _ 0 none ⟨[]⟩ rfl⟩

/-- Claim C5: across any sequence of reads in one session the store is
append-only — the prior contents remain in place as an initial segment —
and when the clock is monotone (the store's timestamps followed by the
successive read instants form a non-decreasing list) the resulting store
lists its samples in insertion order with non-decreasing timestamps. -/
theorem store_append_only_chronological (floatFn : String → Option ℚ)
    (events : List (ℕ × Option Device)) (st : AppState)
    (h : List.Chain' (· ≤ ·)
      (st.data.map Sample.timestamp ++ events.map Prod.fst)) :
    (∃ added, (runSession floatFn events st).data = st.data ++ added) ∧
    List.Chain' (· ≤ ·)
      ((runSession floatFn events st).data.map Sample.timestamp) := by
  constructor
  · exact ⟨parsedSamples floatFn events, runSession_data floatFn events st⟩
  · rw [runSession_data, List.map_append]
    exact h.sublist
      (List.Sublist.append_left (parsedSamples_stamps_sublist floatFn events) _)

/-- Witness for C5 at a concrete one-event session from the empty store. -/
theorem store_append_only_chronological_witness :
    List.Chain' (· ≤ ·)
      ((AppState.mk []).data.map Sample.timestamp ++
        ([((1 : ℕ), (none : Option Device))].map Prod.fst)) ∧
    ((∃ added,
        (runSession (fun _ : String => (none : Option ℚ)) [(1, none)]
          ⟨[]⟩).data = (AppState.mk []).data ++ added) ∧
     List.Chain' (· ≤ ·)
       ((runSession (fun _ : String => (none : Option ℚ)) [(1, none)]
         ⟨[]⟩).data.map Sample.timestamp)) :=
  ⟨by simp, store_append_only_chronological _ _ _ (by simp)⟩

/-- Claim C6: whenever the store is non-empty the latest-value view shows
the most recently appended sample's `current` formatted to two decimal
places with unit "A"; on the empty store it renders nothing. -/
theorem latest_value_view (st : AppState) :
    (∀ h : st.data ≠ [], display_current_reading st =
      some (format2 (st.data.getLast h).current ++ " A")) ∧
    (st.data = [] → display_current_reading st = none) := by
  constructor
  · intro h
    simp only [display_current_reading]
    rw [List.getLast?_eq_getLast st.data h]
  · intro h
    simp only [display_current_reading]
    rw [h]
    rfl

/-- Witness for C6 at a one-sample store and the empty store. -/
theorem latest_value_view_witness :
    display_current_reading ⟨[{ timestamp := 0, current := 7 }]⟩ =
      some (format2 7 ++ " A") ∧
    display_current_reading ⟨[]⟩ = none :=
  ⟨(latest_value_view ⟨[{ timestamp := 0, current := 7 }]⟩).1 (by decide),
   (latest_value_view ⟨[]⟩).2 rfl⟩

end Scada
